import Mathlib

/-!
# Verification of the fixed-UTC-offset datetime module

Shallow embedding of `src/cal/offset.rs` from the `rust-datetime` library,
together with the parts of the surrounding library the offset module uses
(`LocalDateTime`, `Duration`, calendar-field derivation), which are not part
of the given sources and are therefore modelled from the specification.

Machine integers (`i8`, `i32`, `i64`) are embedded as `Int`: every arithmetic
operation performed by the embedded code (range comparisons, `hours * 24 +
minutes * 60` on values cast up to `i32`, seconds-to-milliseconds scaling)
stays far inside the representable range of the original machine type for the
inputs the code accepts, so wrapping never occurs and the unbounded embedding
is exact.
-/

namespace Datetime

/-- Rust `Result<T, E>`, with the constructor names of the source. -/
inductive Result (α : Type) (ε : Type) where
  | Ok (val : α) : Result α ε
  | Err (err : ε) : Result α ε
deriving DecidableEq, Repr

/-- Modelled from the spec: `cal/datetime.rs` is not among the given sources.
A `LocalDateTime` is a single linear instant value (milliseconds since a
fixed epoch), the sole source of truth; every calendar/time field is derived
from it on demand. -/
structure LocalDateTime where
  millis : Int
deriving DecidableEq, Repr

/-- Modelled from the spec: `duration.rs` is not among the given sources.
A `Duration` is a signed span of time; `Duration::of(count)` constructs it
from a raw signed count of whole seconds. -/
structure Duration where
  seconds : Int
deriving DecidableEq, Repr

def Duration.of (s : Int) : Duration := ⟨s⟩

/-- Modelled from the spec: adding a `Duration` to a `LocalDateTime` produces
the `LocalDateTime` whose linear instant is the sum (the stored instant is in
milliseconds, the duration in seconds). -/
def LocalDateTime.addDuration (t : LocalDateTime) (d : Duration) : LocalDateTime :=
  ⟨t.millis + d.seconds * 1000⟩

/-- Modelled from the spec: the month enumeration of `cal/datetime.rs`,
twelve named variants. -/
inductive Month where
  | January | February | March | April | May | June
  | July | August | September | October | November | December
deriving DecidableEq, Repr

/-- Modelled from the spec: the weekday enumeration of `cal/datetime.rs`,
seven named variants, cyclic. -/
inductive Weekday where
  | Sunday | Monday | Tuesday | Wednesday | Thursday | Friday | Saturday
deriving DecidableEq, Repr

/-- Modelled from the spec: the proleptic Gregorian leap-year rule — a year
is leap iff divisible by 4, except centuries are not leap unless divisible
by 400. -/
def isLeapYear (y : Int) : Bool :=
  y % 4 == 0 && (y % 100 != 0 || y % 400 == 0)

/-- Modelled from the spec: month selected by its ordinal 1..12. -/
def Month.ofOrdinal (n : Int) : Month :=
  if n = 1 then .January
  else if n = 2 then .February
  else if n = 3 then .March
  else if n = 4 then .April
  else if n = 5 then .May
  else if n = 6 then .June
  else if n = 7 then .July
  else if n = 8 then .August
  else if n = 9 then .September
  else if n = 10 then .October
  else if n = 11 then .November
  else .December

/-- Modelled from the spec: ordinal of a month, 1..12. -/
def Month.ordinal : Month → Int
  | .January => 1 | .February => 2 | .March => 3 | .April => 4
  | .May => 5 | .June => 6 | .July => 7 | .August => 8
  | .September => 9 | .October => 10 | .November => 11 | .December => 12

/-- Modelled from the spec: cumulative day count of the months strictly
before this one, in a common (non-leap) year. -/
def Month.daysBefore : Month → Int
  | .January => 0 | .February => 31 | .March => 59 | .April => 90
  | .May => 120 | .June => 151 | .July => 181 | .August => 212
  | .September => 243 | .October => 273 | .November => 304 | .December => 334

/-- Modelled from the spec: weekday selected by its index 0..6, epoch-aligned
so that the cycle matches the true weekday. -/
def Weekday.ofIndex (n : Int) : Weekday :=
  if n = 0 then .Sunday
  else if n = 1 then .Monday
  else if n = 2 then .Tuesday
  else if n = 3 then .Wednesday
  else if n = 4 then .Thursday
  else if n = 5 then .Friday
  else .Saturday

/-- Modelled from the spec: the Calendar Calculus bijection, inverse
direction — from a linear day-count since the epoch (1970-01-01) to the
civil (year, month-ordinal, day-of-month) triple, under the proleptic
Gregorian rule. -/
def civilFromDays (z0 : Int) : Int × Int × Int :=
  let z := z0 + 719468
  let era := z.fdiv 146097
  let doe := z - era * 146097
  let yoe := (doe - doe / 1460 + doe / 36524 - doe / 146096) / 365
  let y := yoe + era * 400
  let doy := doe - (365 * yoe + yoe / 4 - yoe / 100)
  let mp := (5 * doy + 2) / 153
  let d := doy - (153 * mp + 2) / 5 + 1
  let m := if mp < 10 then mp + 3 else mp - 9
  (if m ≤ 2 then y + 1 else y, m, d)

/-- Whole days since the epoch contained in the instant (floor division, so
instants before the epoch land in the correct earlier day). -/
def LocalDateTime.daysSinceEpoch (t : LocalDateTime) : Int :=
  t.millis.fdiv 86400000

/-- Milliseconds elapsed since the start of the instant's day, always in
[0, 86400000). -/
def LocalDateTime.msOfDay (t : LocalDateTime) : Int :=
  t.millis.emod 86400000

/-- Modelled from the spec: derived field — calendar year. -/
def LocalDateTime.year (t : LocalDateTime) : Int :=
  (civilFromDays t.daysSinceEpoch).1

/-- Modelled from the spec: derived field — month ordinal 1..12. -/
def LocalDateTime.monthOrdinal (t : LocalDateTime) : Int :=
  (civilFromDays t.daysSinceEpoch).2.1

/-- Modelled from the spec: derived field — month. -/
def LocalDateTime.month (t : LocalDateTime) : Month :=
  Month.ofOrdinal t.monthOrdinal

/-- Modelled from the spec: derived field — day of month. -/
def LocalDateTime.day (t : LocalDateTime) : Int :=
  (civilFromDays t.daysSinceEpoch).2.2

/-- Modelled from the spec: derived field — day of year, the cumulative
month-length sum up to the preceding month plus the day, with the leap-year
adjustment applied when the month is after February. -/
def LocalDateTime.yearday (t : LocalDateTime) : Int :=
  t.month.daysBefore + (if isLeapYear t.year ∧ 2 < t.monthOrdinal then 1 else 0) + t.day

/-- Modelled from the spec: derived field — weekday, a fixed-cycle
computation of the day-count modulo 7, offset so the epoch (a Thursday)
aligns with its true weekday. -/
def LocalDateTime.weekday (t : LocalDateTime) : Weekday :=
  Weekday.ofIndex ((t.daysSinceEpoch + 4).emod 7)

/-- Modelled from the spec: derived field — hour of day, 0..23. -/
def LocalDateTime.hour (t : LocalDateTime) : Int :=
  t.msOfDay / 3600000

/-- Modelled from the spec: derived field — minute of hour, 0..59. -/
def LocalDateTime.minute (t : LocalDateTime) : Int :=
  t.msOfDay / 60000 % 60

/-- Modelled from the spec: derived field — second of minute, 0..59. -/
def LocalDateTime.second (t : LocalDateTime) : Int :=
  t.msOfDay / 1000 % 60

/-- Modelled from the spec: derived field — millisecond of second, 0..999. -/
def LocalDateTime.millisecond (t : LocalDateTime) : Int :=
  t.msOfDay % 1000

/-- Modelled from the spec: the datetime-field error of `cal/datetime.rs`
(not among the given sources) — a calendar-field validation failure
identifying which field was out of range. -/
inductive DateTimeError where
  | FieldOutOfRange (field : String) : DateTimeError
deriving DecidableEq, Repr

/-- `RangeExt::is_within` from `util.rs` applied to the half-open Rust range
`lo..hi`: true iff `lo <= x < hi`. -/
def is_within (x lo hi : Int) : Bool :=
  decide (lo ≤ x) && decide (x < hi)

/-- `Offset` from `src/cal/offset.rs`: `offset_seconds` is `None` for the
UTC sentinel and `Some s` for a fixed displacement of `s` seconds. -/
structure Offset where
  offset_seconds : Option Int
deriving DecidableEq, Repr

/-- `Error` from `src/cal/offset.rs`. -/
inductive Error where
  | OutOfRange : Error
  | SignMismatch : Error
  | Date (e : DateTimeError) : Error
deriving DecidableEq, Repr

/-- `Error::description` from `src/cal/offset.rs`. -/
def Error.description : Error → String
  | .OutOfRange => "offset field out of range"
  | .SignMismatch => "sign mismatch"
  | .Date _ => "datetime field out of range"

/-- `Error::cause` from `src/cal/offset.rs`: the wrapped underlying error,
present exactly for the `Date` variant. -/
def Error.cause : Error → Option DateTimeError
  | .Date e => some e
  | _ => none

/-- `Offset::utc` from `src/cal/offset.rs`. -/
def Offset.utc : Offset := ⟨none⟩

/-- `Offset::of_seconds` from `src/cal/offset.rs`. -/
def Offset.of_seconds (seconds : Int) : Result Offset Error :=
  if is_within seconds (-86400) 86401 then
    .Ok ⟨some seconds⟩
  else
    .Err .OutOfRange

/-- `Offset::of_hours_and_minutes` from `src/cal/offset.rs`.
`i8::is_positive`/`is_negative` are the strict comparisons with zero; the
casts of `hours` and `minutes` to `i32` are exact, and the source combines
them as `hours * 24 + minutes * 60` (sic). -/
def Offset.of_hours_and_minutes (hours minutes : Int) : Result Offset Error :=
  if (0 < hours ∧ minutes < 0) ∨ (hours < 0 ∧ 0 < minutes) then
    .Err .SignMismatch
  else if hours ≤ -24 ∨ 24 ≤ hours then
    .Err .OutOfRange
  else if minutes ≤ -60 ∨ 60 ≤ minutes then
    .Err .OutOfRange
  else
    Offset.of_seconds (hours * 24 + minutes * 60)

/-- `Offset::adjust` from `src/cal/offset.rs`: shift the local instant by
the stored seconds, or leave it alone for the UTC sentinel. -/
def Offset.adjust (o : Offset) (t : LocalDateTime) : LocalDateTime :=
  match o.offset_seconds with
  | some s => t.addDuration (Duration.of s)
  | none => t

/-- `OffsetDateTime` from `src/cal/offset.rs`: the unadjusted local instant
paired with the offset. (`local` is a Lean keyword, hence the field name
`local_dt`.) -/
structure OffsetDateTime where
  local_dt : LocalDateTime
  offset : Offset
deriving DecidableEq, Repr

/-- `Offset::transform_date` from `src/cal/offset.rs`: pairs the given
local datetime with this offset, no validation. -/
def Offset.transform_date (o : Offset) (t : LocalDateTime) : OffsetDateTime :=
  ⟨t, o⟩

/-- `DatePiece::year` for `OffsetDateTime`. -/
def OffsetDateTime.year (d : OffsetDateTime) : Int :=
  (d.offset.adjust d.local_dt).year

/-- `DatePiece::month` for `OffsetDateTime`. -/
def OffsetDateTime.month (d : OffsetDateTime) : Month :=
  (d.offset.adjust d.local_dt).month

/-- `DatePiece::day` for `OffsetDateTime`. -/
def OffsetDateTime.day (d : OffsetDateTime) : Int :=
  (d.offset.adjust d.local_dt).day

/-- `DatePiece::yearday` for `OffsetDateTime`. -/
def OffsetDateTime.yearday (d : OffsetDateTime) : Int :=
  (d.offset.adjust d.local_dt).yearday

/-- `DatePiece::weekday` for `OffsetDateTime`. -/
def OffsetDateTime.weekday (d : OffsetDateTime) : Weekday :=
  (d.offset.adjust d.local_dt).weekday

/-- `TimePiece::hour` for `OffsetDateTime`. -/
def OffsetDateTime.hour (d : OffsetDateTime) : Int :=
  (d.offset.adjust d.local_dt).hour

/-- `TimePiece::minute` for `OffsetDateTime`. -/
def OffsetDateTime.minute (d : OffsetDateTime) : Int :=
  (d.offset.adjust d.local_dt).minute

/-- `TimePiece::second` for `OffsetDateTime`. -/
def OffsetDateTime.second (d : OffsetDateTime) : Int :=
  (d.offset.adjust d.local_dt).second

/-- `TimePiece::millisecond` for `OffsetDateTime`. -/
def OffsetDateTime.millisecond (d : OffsetDateTime) : Int :=
  (d.offset.adjust d.local_dt).millisecond

/-- A `&self` accessor call in the Rust source, made explicit as state
passing: reading every field of an `OffsetDateTime` returns the nine field
values together with the state the call leaves behind. -/
def OffsetDateTime.read (d : OffsetDateTime) :
    (Int × Month × Int × Int × Weekday × Int × Int × Int × Int) × OffsetDateTime :=
  ((d.year, d.month, d.day, d.yearday, d.weekday,
    d.hour, d.minute, d.second, d.millisecond), d)

/-! ## Claims -/

/-- Claim C1, counterexample evaluation at the failing input `hours = 1,
minutes = 0`: the code combines the pair as `hours * 24 + minutes * 60`,
delegating 24 seconds — not the claimed `hours * 3600 + minutes * 60 = 3600`
— so `of_hours_and_minutes(1, 0)` differs from `of_seconds(3600)`. -/
theorem c1_formula_is_h24_not_h3600 :
    Offset.of_hours_and_minutes 1 0 = Result.Ok ⟨some 24⟩ ∧
    Offset.of_seconds 3600 = Result.Ok ⟨some 3600⟩ ∧
    Offset.of_hours_and_minutes 1 0 ≠ Offset.of_seconds 3600 := by
  refine ⟨by decide, by decide, by decide⟩

/-- Claim C2: `of_seconds(s)` returns `Ok` (storing `s`) exactly when `s`
lies in the closed interval [-86400, 86400] and `Err(OutOfRange)` otherwise;
in particular it succeeds at ±86400 and fails at ±86401. -/
theorem c2_of_seconds_range :
    (∀ s : Int, Offset.of_seconds s =
      if -86400 ≤ s ∧ s ≤ 86400 then Result.Ok ⟨some s⟩ else Result.Err Error.OutOfRange) ∧
    Offset.of_seconds 86400 = Result.Ok ⟨some 86400⟩ ∧
    Offset.of_seconds (-86400) = Result.Ok ⟨some (-86400)⟩ ∧
    Offset.of_seconds 86401 = Result.Err Error.OutOfRange ∧
    Offset.of_seconds (-86401) = Result.Err Error.OutOfRange := by
  refine ⟨fun s => ?_, by decide, by decide, by decide, by decide⟩
  unfold Offset.of_seconds is_within
  by_cases h : -86400 ≤ s ∧ s ≤ 86400
  · rw [if_pos h, if_pos (by simp only [Bool.and_eq_true, decide_eq_true_eq]; omega)]
  · rw [if_neg h, if_neg (by simp only [Bool.and_eq_true, decide_eq_true_eq]; omega)]

/-- Claim C3: every field accessor of `o.transform_date(t)` equals the
corresponding accessor of `t + Duration::of(s)` when `o` stores the seconds
value `s`, and equals the accessor of `t` itself when `o` is the UTC
sentinel. -/
theorem c3_transform_date_accessors :
    ∀ (t : LocalDateTime) (s : Int),
      (((Offset.mk (some s)).transform_date t).year =
          (t.addDuration (Duration.of s)).year ∧
        ((Offset.mk (some s)).transform_date t).month =
          (t.addDuration (Duration.of s)).month ∧
        ((Offset.mk (some s)).transform_date t).day =
          (t.addDuration (Duration.of s)).day ∧
        ((Offset.mk (some s)).transform_date t).yearday =
          (t.addDuration (Duration.of s)).yearday ∧
        ((Offset.mk (some s)).transform_date t).weekday =
          (t.addDuration (Duration.of s)).weekday ∧
        ((Offset.mk (some s)).transform_date t).hour =
          (t.addDuration (Duration.of s)).hour ∧
        ((Offset.mk (some s)).transform_date t).minute =
          (t.addDuration (Duration.of s)).minute ∧
        ((Offset.mk (some s)).transform_date t).second =
          (t.addDuration (Duration.of s)).second ∧
        ((Offset.mk (some s)).transform_date t).millisecond =
          (t.addDuration (Duration.of s)).millisecond) ∧
      ((Offset.utc.transform_date t).year = t.year ∧
        (Offset.utc.transform_date t).month = t.month ∧
        (Offset.utc.transform_date t).day = t.day ∧
        (Offset.utc.transform_date t).yearday = t.yearday ∧
        (Offset.utc.transform_date t).weekday = t.weekday ∧
        (Offset.utc.transform_date t).hour = t.hour ∧
        (Offset.utc.transform_date t).minute = t.minute ∧
        (Offset.utc.transform_date t).second = t.second ∧
        (Offset.utc.transform_date t).millisecond = t.millisecond) :=
  fun _ _ =>
    ⟨⟨rfl, rfl, rfl, rfl, rfl, rfl, rfl, rfl, rfl⟩,
     ⟨rfl, rfl, rfl, rfl, rfl, rfl, rfl, rfl, rfl⟩⟩

/-- Claim C6: the five concrete constructor cases — (5, 30), (-3, -45) and
(4, 0) succeed, (8, 60) fails out of range, (-4, 30) fails with a sign
mismatch. -/
theorem c6_concrete_cases :
    Offset.of_hours_and_minutes 5 30 = Result.Ok ⟨some 1920⟩ ∧
    Offset.of_hours_and_minutes (-3) (-45) = Result.Ok ⟨some (-2772)⟩ ∧
    Offset.of_hours_and_minutes 8 60 = Result.Err Error.OutOfRange ∧
    Offset.of_hours_and_minutes (-4) 30 = Result.Err Error.SignMismatch ∧
    Offset.of_hours_and_minutes 4 0 = Result.Ok ⟨some 96⟩ := by
  refine ⟨by decide, by decide, by decide, by decide, by decide⟩

/-- Claim C7: `transform_date` stores the supplied local datetime and offset
unmodified and totally (no validation, no `Result`), and field access is
pure: a read leaves the `OffsetDateTime` — its stored local instant and its
stored offset — exactly as it was, so a repeated read yields the identical
nine field values. -/
theorem c7_reads_idempotent :
    ∀ (o : Offset) (t : LocalDateTime) (d : OffsetDateTime),
      (o.transform_date t).local_dt = t ∧
      (o.transform_date t).offset = o ∧
      d.read.2 = d ∧
      d.read.2.local_dt = d.local_dt ∧
      d.read.2.offset = d.offset ∧
      d.read.2.read.1 = d.read.1 :=
  fun _ _ _ => ⟨rfl, rfl, rfl, rfl, rfl, rfl⟩

/-- Claim C8: the offset error type has exactly the three variants
`OutOfRange`, `SignMismatch` and `Date` (wrapping a datetime field error),
and `cause` returns the wrapped error exactly when the variant is `Date`. -/
theorem c8_error_taxonomy :
    (∀ e : Error, e = Error.OutOfRange ∨ e = Error.SignMismatch ∨
      ∃ d, e = Error.Date d) ∧
    (∀ (e : Error) (d : DateTimeError), e.cause = some d ↔ e = Error.Date d) ∧
    Error.cause Error.OutOfRange = none ∧
    Error.cause Error.SignMismatch = none := by
  refine ⟨fun e => ?_, fun e d => ?_, rfl, rfl⟩
  · cases e with
    | OutOfRange => exact Or.inl rfl
    | SignMismatch => exact Or.inr (Or.inl rfl)
    | Date d => exact Or.inr (Or.inr ⟨d, rfl⟩)
  · cases e with
    | OutOfRange => simp [Error.cause]
    | SignMismatch => simp [Error.cause]
    | Date d2 => simp [Error.cause]

/-- Claim C4: `of_hours_and_minutes` returns `Err(SignMismatch)` exactly for
the pairs whose components have strictly opposite signs; a zero component
never triggers it. -/
theorem c4_sign_mismatch_iff :
    ∀ hr mi : Int,
      Offset.of_hours_and_minutes hr mi = Result.Err Error.SignMismatch ↔
        (0 < hr ∧ mi < 0) ∨ (hr < 0 ∧ 0 < mi) := by
  intro hr mi
  unfold Offset.of_hours_and_minutes Offset.of_seconds
  split_ifs with h1 h2 h3 h4 <;> simp_all

/-- Claim C5: once the sign check passes, an hour outside the exclusive
interval (-24, 24) or a minute outside the exclusive interval (-60, 60)
yields `Err(OutOfRange)`; in particular 24, -24 hours and 60, -60 minutes
are rejected. -/
theorem c5_range_rejections :
    (∀ hr mi : Int, ¬((0 < hr ∧ mi < 0) ∨ (hr < 0 ∧ 0 < mi)) →
      (hr ≤ -24 ∨ 24 ≤ hr ∨ mi ≤ -60 ∨ 60 ≤ mi) →
      Offset.of_hours_and_minutes hr mi = Result.Err Error.OutOfRange) ∧
    Offset.of_hours_and_minutes 24 0 = Result.Err Error.OutOfRange ∧
    Offset.of_hours_and_minutes (-24) 0 = Result.Err Error.OutOfRange ∧
    Offset.of_hours_and_minutes 0 60 = Result.Err Error.OutOfRange ∧
    Offset.of_hours_and_minutes 0 (-60) = Result.Err Error.OutOfRange := by
  refine ⟨fun hr mi hs hrange => ?_, by decide, by decide, by decide, by decide⟩
  unfold Offset.of_hours_and_minutes
  rw [if_neg hs]
  by_cases h2 : hr ≤ -24 ∨ 24 ≤ hr
  · rw [if_pos h2]
  · rw [if_neg h2, if_pos (by omega)]

/-- Witness for claim C5 at the concrete input (25, 0). -/
theorem c5_range_rejections_witness :
    Offset.of_hours_and_minutes 25 0 = Result.Err Error.OutOfRange :=
  c5_range_rejections.1 25 0 (by decide) (by decide)

/-- Claim C9: the sign-mismatch check runs before the range checks, so a
pair with strictly opposite signs yields `Err(SignMismatch)` even when a
component is also out of range. -/
theorem c9_sign_check_precedence :
    ∀ hr mi : Int, (0 < hr ∧ mi < 0) ∨ (hr < 0 ∧ 0 < mi) →
      Offset.of_hours_and_minutes hr mi = Result.Err Error.SignMismatch := by
  intro hr mi hs
  unfold Offset.of_hours_and_minutes
  rw [if_pos hs]

/-- Witness for claim C9 at the concrete input (-30, 30), where the hour is
also out of range yet the sign mismatch wins. -/
theorem c9_sign_check_precedence_witness :
    Offset.of_hours_and_minutes (-30) 30 = Result.Err Error.SignMismatch :=
  c9_sign_check_precedence (-30) 30 (by decide)

/-- Claim C10: when the sign and range checks pass, the seconds count the
code delegates to `of_seconds` lies within [-86400, 86400], so the delegated
call always returns `Ok` and its failure branch is unreachable. -/
theorem c10_delegation_never_fails :
    ∀ hr mi : Int,
      ¬((0 < hr ∧ mi < 0) ∨ (hr < 0 ∧ 0 < mi)) →
      -24 < hr → hr < 24 → -60 < mi → mi < 60 →
      (-86400 ≤ hr * 24 + mi * 60 ∧ hr * 24 + mi * 60 ≤ 86400) ∧
      Offset.of_seconds (hr * 24 + mi * 60) =
        Result.Ok ⟨some (hr * 24 + mi * 60)⟩ ∧
      Offset.of_hours_and_minutes hr mi =
        Result.Ok ⟨some (hr * 24 + mi * 60)⟩ := by
  intro hr mi hs h1 h2 h3 h4
  have hw : is_within (hr * 24 + mi * 60) (-86400) 86401 = true := by
    simp only [is_within, Bool.and_eq_true, decide_eq_true_eq]
    omega
  have hok : Offset.of_seconds (hr * 24 + mi * 60) =
      Result.Ok ⟨some (hr * 24 + mi * 60)⟩ := by
    unfold Offset.of_seconds
    rw [if_pos hw]
  refine ⟨by omega, hok, ?_⟩
  unfold Offset.of_hours_and_minutes
  rw [if_neg hs, if_neg (by omega), if_neg (by omega)]
  exact hok

/-- Witness for claim C10 at the concrete input (5, 30). -/
theorem c10_delegation_never_fails_witness :
    Offset.of_hours_and_minutes 5 30 = Result.Ok ⟨some 1920⟩ :=
  (c10_delegation_never_fails 5 30 (by decide) (by decide) (by decide)
    (by decide) (by decide)).2.2

end Datetime
